import Mathlib

/-!
Verification development for the NATS JetStream tracing layer (package
`otx/nats`): header-carrier propagation, messaging span attributes,
functional options, publisher / consumer / handler wrappers.

The Go source is embedded shallowly:

* `nats.Header` (a case-sensitive `map[string][]string`) becomes an
  association list with first-match lookup and overwrite-on-set.
* `context.Context` is modelled by the only datum this layer reads from
  it: the current span context (`Ctx.span`).
* The OpenTelemetry tracer is modelled by a pure `start` returning the
  child context and a `SpanRecord` accumulating the span's observable
  history (attributes, recorded error events, status, end count).  Span
  id generation is SDK-side randomness; it is modelled by the `newSC`
  field of the `Tracer` value.
* Go `panic` in constructors and handlers is modelled by `Except` /
  `Option` results; a Go function that may panic with value `v`
  returns `some v`.
* The underlying JetStream client is an oracle: a structure of
  functions giving the delegate's result for each operation.
-/

namespace Otx

/-- Go `error` values, modelled by their message (identity-preserving). -/
abbrev Err := String

/-- Message payload bytes. -/
abbrev Bytes := List Nat

/-- `otel attribute` values used by this layer (`attribute.String` / `attribute.Int`). -/
inductive AttrValue where
  | str (s : String)
  | int (i : Int)
deriving DecidableEq

/-- `attribute.KeyValue`. -/
abbrev KeyValue := String × AttrValue

/-! ### Constants from `nats/attributes.go` -/

def messagingSystem : String := "nats"

def attrMessagingSystem : String := "messaging.system"

def attrMessagingOperationName : String := "messaging.operation.name"

def attrMessagingOperationType : String := "messaging.operation.type"

def attrMessagingDestinationName : String := "messaging.destination.name"

def attrMessagingConsumerGroup : String := "messaging.consumer.group.name"

def attrMessagingMessageID : String := "messaging.message.id"

def attrMessagingMessageBodySize : String := "messaging.message.body.size"

def attrNATSStream : String := "nats.stream"

def opTypePublish : String := "publish"

def opTypeReceive : String := "receive"

def opTypeProcess : String := "process"

def opTypeSend : String := "send"

/-- `publishAttributes` from `nats/attributes.go`. -/
def publishAttributes (subject msgID : String) (bodySize : Int) : List KeyValue :=
  let attrs : List KeyValue :=
    [(attrMessagingSystem, .str messagingSystem),
     (attrMessagingOperationName, .str opTypePublish),
     (attrMessagingOperationType, .str opTypeSend),
     (attrMessagingDestinationName, .str subject)]
  let attrs := if msgID ≠ "" then attrs ++ [(attrMessagingMessageID, .str msgID)] else attrs
  if bodySize > 0 then attrs ++ [(attrMessagingMessageBodySize, .int bodySize)] else attrs

/-- `receiveAttributes` from `nats/attributes.go`. -/
def receiveAttributes (stream consumerName : String) (bodySize : Int) : List KeyValue :=
  let attrs : List KeyValue :=
    [(attrMessagingSystem, .str messagingSystem),
     (attrMessagingOperationName, .str opTypeReceive),
     (attrMessagingOperationType, .str opTypeReceive),
     (attrNATSStream, .str stream)]
  let attrs :=
    if consumerName ≠ "" then attrs ++ [(attrMessagingConsumerGroup, .str consumerName)] else attrs
  if bodySize > 0 then attrs ++ [(attrMessagingMessageBodySize, .int bodySize)] else attrs

/-- `processAttributes` from `nats/attributes.go`. -/
def processAttributes (stream consumerName subject msgID : String) (bodySize : Int) :
    List KeyValue :=
  let attrs : List KeyValue :=
    [(attrMessagingSystem, .str messagingSystem),
     (attrMessagingOperationName, .str opTypeProcess),
     (attrMessagingOperationType, .str opTypeProcess),
     (attrNATSStream, .str stream)]
  let attrs :=
    if subject ≠ "" then attrs ++ [(attrMessagingDestinationName, .str subject)] else attrs
  let attrs :=
    if consumerName ≠ "" then attrs ++ [(attrMessagingConsumerGroup, .str consumerName)] else attrs
  let attrs := if msgID ≠ "" then attrs ++ [(attrMessagingMessageID, .str msgID)] else attrs
  if bodySize > 0 then attrs ++ [(attrMessagingMessageBodySize, .int bodySize)] else attrs

/-! ### `nats.Header` and the header carrier (`headerCarrier` in the source)

`nats.Header` is a case-sensitive `map[string][]string`; modelled as an
association list with first-match lookup and overwrite-on-set. -/

/-- Model of `nats.Header`. -/
abbrev NatsHeader := List (String × List String)

/-- `nats.Header.Values` (case-sensitive first-entry lookup; `[]` when absent). -/
def NatsHeader.values (h : NatsHeader) (key : String) : List String :=
  match h with
  | [] => []
  | kv :: rest => if kv.1 = key then kv.2 else NatsHeader.values rest key

/-- `nats.Header.Set`: associates `key` with the single value `value`,
overwriting any existing entry. -/
def NatsHeader.set (h : NatsHeader) (key value : String) : NatsHeader :=
  match h with
  | [] => [(key, [value])]
  | kv :: rest =>
      if kv.1 = key then (key, [value]) :: rest else kv :: NatsHeader.set rest key value

/-- `headerCarrier.Get`: the first value for `key`, or `""`. -/
def headerCarrierGet (h : NatsHeader) (key : String) : String :=
  match NatsHeader.values h key with
  | v :: _ => v
  | [] => ""

/-- `headerCarrier.Set`. -/
def headerCarrierSet (h : NatsHeader) (key value : String) : NatsHeader :=
  NatsHeader.set h key value

/-- `headerCarrier.Keys`. -/
def headerCarrierKeys (h : NatsHeader) : List String :=
  h.map Prod.fst

/-! ### Trace model: span contexts, contexts, tracer, span records

`context.Context` is modelled by the only datum this layer consumes from
it: the current span context. -/

/-- `trace.SpanContext`, reduced to its identifiers: 32 lowercase-hex
characters of trace id and 16 of span id. -/
structure SpanContext where
  traceID : List Char
  spanID : List Char
deriving DecidableEq

/-- `SpanContext.IsValid`, as the model needs it: well-formed id lengths. -/
def SpanContext.validb (sc : SpanContext) : Bool :=
  sc.traceID.length = 32 && sc.spanID.length = 16

/-- `context.Context`, reduced to the span context it carries. -/
structure Ctx where
  span : Option SpanContext
deriving DecidableEq

/-- `context.Background()`: no span. -/
def Ctx.background : Ctx := ⟨none⟩

/-- Span kinds (`trace.SpanKind`). -/
inductive SpanKind where
  | producer
  | consumer
  | client
  | server
  | internal
deriving DecidableEq

/-- Span status (`codes.Unset` / `codes.Error` with description). -/
inductive SpanStatus where
  | unset
  | error (desc : String)
deriving DecidableEq

/-- The observable history of one span created by this layer: its start
arguments plus everything the wrappers do to it (`SetAttributes`,
`RecordError`, `SetStatus`, `End`). -/
structure SpanRecord where
  name : String
  kind : SpanKind
  parent : Option SpanContext
  attrs : List KeyValue
  added : List KeyValue
  events : List Err
  status : SpanStatus
  endCount : Nat
deriving DecidableEq

/-- `trace.Tracer`, modelled purely: `newSC` stands for the span context
the SDK's id generator will assign to the next started span. -/
structure Tracer where
  name : String
  newSC : SpanContext

/-- `tracer.Start(ctx, name, kind, attrs)`: returns the child context and
a fresh span record whose parent is the span of `ctx`. -/
def Tracer.start (t : Tracer) (ctx : Ctx) (name : String) (kind : SpanKind)
    (attrs : List KeyValue) : Ctx × SpanRecord :=
  (⟨some t.newSC⟩,
   { name := name, kind := kind, parent := ctx.span, attrs := attrs,
     added := [], events := [], status := .unset, endCount := 0 })

/-- `trace.TracerProvider`: `tp.Tracer(name)`. -/
structure TracerProvider where
  tracer : String → Tracer

/-! ### Propagator

`propagation.TextMapPropagator`, operating on the NATS header carrier. -/

structure Propagator where
  injectF : Ctx → NatsHeader → NatsHeader
  extractF : Ctx → NatsHeader → Ctx

def traceparentKey : String := "traceparent"

/-- Modelled from the interface contract of the external otel
`propagation.TraceContext` propagator: the W3C `traceparent` value
`00-<32 hex trace id>-<16 hex span id>-01`. -/
def encodeTraceparent (sc : SpanContext) : String :=
  String.mk (['0', '0', '-'] ++ (sc.traceID ++ (['-'] ++ (sc.spanID ++ ['-', '0', '1']))))

/-- Modelled from the interface contract of the external otel
`propagation.TraceContext` propagator: positional parse of a
`traceparent` value; `none` on malformed input. -/
def parseTraceparent (s : String) : Option SpanContext :=
  let cs := s.data
  if cs.length = 55 ∧ cs.take 3 = ['0', '0', '-'] ∧
      (cs.drop 35).take 1 = ['-'] ∧ (cs.drop 52).take 1 = ['-'] then
    some ⟨(cs.drop 3).take 32, (cs.drop 36).take 16⟩
  else
    none

/-- Modelled from the interface contract of the external otel
`propagation.TraceContext` propagator: inject writes `traceparent` for a
valid current span context, extract replaces the context's span with the
parsed remote span context when a well-formed `traceparent` is present. -/
def traceContextProp : Propagator where
  injectF ctx h :=
    match ctx.span with
    | some sc => if sc.validb then headerCarrierSet h traceparentKey (encodeTraceparent sc) else h
    | none => h
  extractF ctx h :=
    match parseTraceparent (headerCarrierGet h traceparentKey) with
    | some sc => { ctx with span := some sc }
    | none => ctx

/-- Process-wide mutable defaults (`otel.GetTracerProvider`,
`otel.GetTextMapPropagator`, `tracker.Tracer`), passed explicitly. -/
structure Globals where
  tracerProvider : TracerProvider
  propagator : Propagator
  trackerTracer : Option Tracer

/-! ### Configuration options (`options`, `Option`, `applyOptions`) -/

def instrumentationName : String := "otx/nats"

/-- `options` struct. -/
structure Options where
  tracerName : String
  prop : Option Propagator
  processSpans : Bool
  asyncSpans : Bool
  stream : String

/-- `defaultOptions()`. -/
def defaultOptions : Options :=
  { tracerName := instrumentationName, prop := none,
    processSpans := true, asyncSpans := true, stream := "" }

/-- `Option` (a mutator of `*options`); named `OptionFn` to avoid the
clash with Lean's `Option`. -/
abbrev OptionFn := Options → Options

/-- `WithTracerName`. -/
def WithTracerName (name : String) : OptionFn :=
  fun o => { o with tracerName := name }

/-- `WithPropagator`. -/
def WithPropagator (prop : Propagator) : OptionFn :=
  fun o => { o with prop := some prop }

/-- `WithProcessSpans`. -/
def WithProcessSpans (enabled : Bool) : OptionFn :=
  fun o => { o with processSpans := enabled }

/-- `WithAsyncSpans`. -/
def WithAsyncSpans (enabled : Bool) : OptionFn :=
  fun o => { o with asyncSpans := enabled }

/-- `WithStream`. -/
def WithStream (stream : String) : OptionFn :=
  fun o => { o with stream := stream }

/-- `applyOptions`: fold the mutators over the defaults. -/
def applyOptions (opts : List OptionFn) : Options :=
  opts.foldl (fun o f => f o) defaultOptions

/-- `getTracer(tp, opts)`: custom tracer name resolves through the
(possibly global) provider; otherwise the tracker tracer wins when set,
else the provider fallback. -/
def getTracer (g : Globals) (tp : Option TracerProvider) (opts : Options) : Tracer :=
  if opts.tracerName ≠ instrumentationName then
    (tp.getD g.tracerProvider).tracer opts.tracerName
  else
    match g.trackerTracer with
    | some t => t
    | none => (tp.getD g.tracerProvider).tracer opts.tracerName

/-- `getPropagator(opts)`: the option's propagator, else the global. -/
def getPropagator (g : Globals) (opts : Options) : Propagator :=
  match opts.prop with
  | some p => p
  | none => g.propagator

/-! ### Messages and the JetStream client oracle -/

/-- `nats.Msg`: subject, payload, nil-able header map. -/
structure Msg where
  subject : String
  data : Bytes
  header : Option NatsHeader

/-- `jetstream.PubAck`, reduced to the sequence the wrapper reads. -/
structure PubAck where
  sequence : Nat
deriving DecidableEq

/-- Opaque `jetstream.PubAckFuture` handle. -/
abbrev Future := Nat

/-- The underlying `jetstream.JetStream` client, as an oracle giving each
delegate call's result. -/
structure JetStream where
  publishMsg : Msg → Except Err (Option PubAck)
  publishMsgAsync : Msg → Except Err Future
  publishAsync : String → Bytes → Except Err Future

/-! ### `InjectNATS` / `ExtractNATS` (propagation helpers) -/

/-- `InjectNATS`: initializes a nil header map, then injects via the
global propagator.  Returns the mutated message. -/
def InjectNATS (g : Globals) (ctx : Ctx) (msg : Msg) : Msg :=
  let hdr := msg.header.getD []
  { msg with header := some (g.propagator.injectF ctx hdr) }

/-- `ExtractNATS`: nil header map is a no-op returning the input context;
otherwise extract via the global propagator. -/
def ExtractNATS (g : Globals) (ctx : Ctx) (header : Option NatsHeader) : Ctx :=
  match header with
  | none => ctx
  | some h => g.propagator.extractF ctx h

/-! ### Publisher (`nats/publisher.go`) -/

structure Publisher where
  js : JetStream
  tracer : Tracer
  prop : Propagator
  opts : Options

/-- `NewPublisherWithProviders`: panics (modelled by `Except.error`) when
the JetStream handle is nil. -/
def NewPublisherWithProviders (g : Globals) (js : Option JetStream)
    (tp : Option TracerProvider) (prop : Option Propagator)
    (opts : List OptionFn) : Except String Publisher :=
  match js with
  | none => .error "otx/nats: JetStream must not be nil"
  | some js =>
    let o := applyOptions opts
    let o := match prop with
      | some p => { o with prop := some p }
      | none => o
    .ok { js := js, tracer := getTracer g tp o, prop := getPropagator g o, opts := o }

/-- `NewPublisher`: global providers. -/
def NewPublisher (g : Globals) (js : Option JetStream) (opts : List OptionFn) :
    Except String Publisher :=
  NewPublisherWithProviders g js none none opts

/-- The span start of `Publisher.Publish` / `Publisher.PublishMsg`. -/
def Publisher.publishStart (p : Publisher) (ctx : Ctx) (subject : String) (bodySize : Int) :
    Ctx × SpanRecord :=
  p.tracer.start ctx (opTypePublish ++ " " ++ subject) .producer
    (publishAttributes subject "" bodySize)

/-- The outgoing message `Publisher.Publish` constructs: fresh header map
(`make(nats.Header)`), then trace-context injection under the
span-bearing context. -/
def Publisher.builtPublishMsg (p : Publisher) (ctx : Ctx) (subject : String) (data : Bytes) :
    Msg :=
  { subject := subject, data := data,
    header := some (p.prop.injectF (p.publishStart ctx subject (Int.ofNat data.length)).1 []) }

/-- Outcome of a synchronous publish wrapper: the returned value, the
spans created during the call, and the message handed to the delegate. -/
structure PublishOutcome where
  res : Except Err (Option PubAck)
  spans : List SpanRecord
  sent : Msg

/-- Shared tail of `Publish` / `PublishMsg`: delegate call, error
annotation, ack-sequence attribute, deferred `span.End()`. -/
def Publisher.publishFinish (p : Publisher) (subject : String) (span : SpanRecord) (msg : Msg) :
    PublishOutcome :=
  match p.js.publishMsg msg with
  | .error e =>
    { res := .error e,
      spans := [{ span with events := [e], status := .error e, endCount := 1 }],
      sent := msg }
  | .ok ack =>
    let span :=
      match ack with
      | some a => { span with added := publishAttributes subject (Nat.repr a.sequence) 0 }
      | none => span
    { res := .ok ack, spans := [{ span with endCount := 1 }], sent := msg }

/-- `Publisher.Publish`. -/
def Publisher.Publish (p : Publisher) (ctx : Ctx) (subject : String) (data : Bytes) :
    PublishOutcome :=
  let span := (p.publishStart ctx subject (Int.ofNat data.length)).2
  let msg := p.builtPublishMsg ctx subject data
  p.publishFinish subject span msg

/-- The outgoing message `Publisher.PublishMsg` sends: the caller's
message, with a nil header map initialized, after injection. -/
def Publisher.builtFromMsg (p : Publisher) (ctx : Ctx) (msg : Msg) : Msg :=
  { msg with
    header := some (p.prop.injectF
      (p.publishStart ctx msg.subject (Int.ofNat msg.data.length)).1 (msg.header.getD [])) }

/-- `Publisher.PublishMsg`. -/
def Publisher.PublishMsg (p : Publisher) (ctx : Ctx) (msg : Msg) : PublishOutcome :=
  let span := (p.publishStart ctx msg.subject (Int.ofNat msg.data.length)).2
  let sent := p.builtFromMsg ctx msg
  p.publishFinish msg.subject span sent

/-- The delegate call an async publish wrapper makes. -/
inductive AsyncCall where
  | dataCall (subject : String) (data : Bytes)
  | msgCall (m : Msg)

/-- Outcome of an async publish wrapper: returned value, spans created,
the delegate call made, and how many propagator injections happened. -/
structure AsyncOutcome where
  res : Except Err Future
  spans : List SpanRecord
  call : AsyncCall
  injects : Nat

/-- The span start of the async publish wrappers: always from
`context.Background()`. -/
def Publisher.asyncStart (p : Publisher) (subject : String) (bodySize : Int) :
    Ctx × SpanRecord :=
  p.tracer.start Ctx.background (opTypePublish ++ " " ++ subject) .producer
    (publishAttributes subject "" bodySize)

/-- The message `Publisher.PublishAsync` constructs (fresh header map,
injection under the async span's context). -/
def Publisher.builtAsyncMsg (p : Publisher) (subject : String) (data : Bytes) : Msg :=
  { subject := subject, data := data,
    header := some (p.prop.injectF (p.asyncStart subject (Int.ofNat data.length)).1 []) }

/-- Shared tail of the enabled async publish paths. -/
def Publisher.asyncFinish (p : Publisher) (span : SpanRecord) (msg : Msg) : AsyncOutcome :=
  match p.js.publishMsgAsync msg with
  | .error e =>
    { res := .error e,
      spans := [{ span with events := [e], status := .error e, endCount := 1 }],
      call := .msgCall msg, injects := 1 }
  | .ok f =>
    { res := .ok f, spans := [{ span with endCount := 1 }], call := .msgCall msg, injects := 1 }

/-- `Publisher.PublishAsync`: pure pass-through when async spans are
disabled, else span + injection + delegate. -/
def Publisher.PublishAsync (p : Publisher) (subject : String) (data : Bytes) : AsyncOutcome :=
  if !p.opts.asyncSpans then
    { res := p.js.publishAsync subject data, spans := [],
      call := .dataCall subject data, injects := 0 }
  else
    let span := (p.asyncStart subject (Int.ofNat data.length)).2
    let msg := p.builtAsyncMsg subject data
    p.asyncFinish span msg

/-- The message `Publisher.PublishAsyncMsg` sends when async spans are
enabled (nil header initialized, injection under the async span). -/
def Publisher.builtAsyncFromMsg (p : Publisher) (msg : Msg) : Msg :=
  { msg with
    header := some (p.prop.injectF
      (p.asyncStart msg.subject (Int.ofNat msg.data.length)).1 (msg.header.getD [])) }

/-- `Publisher.PublishAsyncMsg`: pure pass-through of the untouched
caller message when async spans are disabled. -/
def Publisher.PublishAsyncMsg (p : Publisher) (msg : Msg) : AsyncOutcome :=
  if !p.opts.asyncSpans then
    { res := p.js.publishMsgAsync msg, spans := [], call := .msgCall msg, injects := 0 }
  else
    let span := (p.asyncStart msg.subject (Int.ofNat msg.data.length)).2
    let sent := p.builtAsyncFromMsg msg
    p.asyncFinish span sent

/-! ### Inbound messages, traced messages, iterators -/

/-- `jetstream.Msg` metadata (`Metadata()`): stream and consumer name.
`none` models both the error return and a nil metadata value. -/
structure Metadata where
  stream : String
  consumer : String

/-- An inbound `jetstream.Msg`.  A nil interface value is modelled as
`Option JsMsg = none` at use sites that guard against it. -/
structure JsMsg where
  subject : String
  data : Bytes
  headers : Option NatsHeader
  metadata : Option Metadata

/-- `TracedMsg`: the wrapped message plus its extracted context (the
`ctx` field may be nil in Go; `Context()` guards it). -/
structure TracedMsg where
  msg : Option JsMsg
  ctx : Option Ctx

/-- `TracedMsg.Context`: never nil — background when unset. -/
def TracedMsg.Context (m : TracedMsg) : Ctx :=
  m.ctx.getD Ctx.background

/-- The native `jetstream.MessageBatch`: its message sequence (drained in
order by `Messages()`) and its terminal error. -/
structure MessageBatch where
  msgs : List JsMsg
  err : Option Err

/-- The native `jetstream.MessagesContext`, observed one blocking
`Next()` call at a time: `nextResult` is what that call returns. -/
structure MessagesCtx where
  nextResult : Except Err JsMsg

/-- `jetstream.ConsumerInfo`, reduced to the cached name. -/
structure ConsumerInfo where
  name : String

/-- The underlying `jetstream.Consumer`, as an oracle giving each
delegate call's result. -/
structure Consumer where
  fetch : Nat → Except Err MessageBatch
  fetchBytes : Nat → Except Err MessageBatch
  fetchNoWait : Nat → Except Err MessageBatch
  next : Except Err JsMsg
  messages : Except Err MessagesCtx
  cachedInfo : Option ConsumerInfo

/-- `TracedMessageBatch`. -/
structure TracedMessageBatch where
  batch : MessageBatch
  ctx : Ctx
  opts : Options
  stream : String
  extractCtx : Ctx → Option JsMsg → Ctx

/-- `TracedMessageBatch.Messages`: the single background producer ranges
over the native batch's messages in order and sends each, wrapped with a
freshly extracted context, on a FIFO channel; modelled as the list the
channel yields. -/
def TracedMessageBatch.Messages (b : TracedMessageBatch) : List TracedMsg :=
  b.batch.msgs.map fun m => { msg := some m, ctx := some (b.extractCtx b.ctx (some m)) }

/-- `TracedMessageBatch.Error`. -/
def TracedMessageBatch.Error (b : TracedMessageBatch) : Option Err :=
  b.batch.err

/-- `TracedMessagesContext`. -/
structure TracedMessagesContext where
  messagesCtx : MessagesCtx
  ctx : Ctx
  opts : Options
  stream : String
  extractCtx : Ctx → Option JsMsg → Ctx

/-- `TracedMessagesContext.Next`: delegate `Next()`, then wrap with an
extracted context.  The second component is the list of spans the call
creates (the source starts none). -/
def TracedMessagesContext.Next (c : TracedMessagesContext) :
    Except Err TracedMsg × List SpanRecord :=
  match c.messagesCtx.nextResult with
  | .error e => (.error e, [])
  | .ok msg => (.ok { msg := some msg, ctx := some (c.extractCtx c.ctx (some msg)) }, [])

/-! ### Consumer wrapper (`TracedConsumer`) -/

structure TracedConsumer where
  consumer : Consumer
  stream : String
  tracer : Tracer
  prop : Propagator
  opts : Options

/-- `WrapConsumerWithProviders`: panics (modelled by `Except.error`) when
the consumer handle is nil. -/
def WrapConsumerWithProviders (g : Globals) (c : Option Consumer) (stream : String)
    (tp : Option TracerProvider) (prop : Option Propagator)
    (opts : List OptionFn) : Except String TracedConsumer :=
  match c with
  | none => .error "otx/nats: Consumer must not be nil"
  | some c =>
    let o := applyOptions opts
    let o := match prop with
      | some p => { o with prop := some p }
      | none => o
    .ok { consumer := c, stream := stream, tracer := getTracer g tp o,
          prop := getPropagator g o, opts := o }

/-- `WrapConsumer`: global providers. -/
def WrapConsumer (g : Globals) (c : Option Consumer) (stream : String)
    (opts : List OptionFn) : Except String TracedConsumer :=
  WrapConsumerWithProviders g c stream none none opts

/-- `TracedConsumer.extractContext`: nil message or nil headers return
the input context unchanged; otherwise propagator extraction over the
header carrier. -/
def TracedConsumer.extractContext (tc : TracedConsumer) (ctx : Ctx) (msg : Option JsMsg) :
    Ctx :=
  match msg with
  | none => ctx
  | some m =>
    match m.headers with
    | none => ctx
    | some h => tc.prop.extractF ctx h

/-- `TracedConsumer.startFetchSpan`: client-kind receive span named
`"receive " ++ stream`, started from `context.Background()`. -/
def TracedConsumer.startFetchSpan (tc : TracedConsumer) : Ctx × SpanRecord :=
  let consumerName :=
    match tc.consumer.cachedInfo with
    | some info => info.name
    | none => ""
  let spanName := opTypeReceive ++ " " ++ tc.stream
  tc.tracer.start Ctx.background spanName .client (receiveAttributes tc.stream consumerName 0)

/-- `TracedConsumer.wrapBatch`. -/
def TracedConsumer.wrapBatch (tc : TracedConsumer) (ctx : Ctx) (batch : MessageBatch) :
    TracedMessageBatch :=
  { batch := batch, ctx := ctx, opts := tc.opts, stream := tc.stream,
    extractCtx := tc.extractContext }

/-- Outcome of a fetch-family wrapper call. -/
structure FetchOutcome where
  res : Except Err TracedMessageBatch
  spans : List SpanRecord

/-- Shared tail of the three batch fetch wrappers. -/
def TracedConsumer.fetchFinish (tc : TracedConsumer) (ctx : Ctx) (span : SpanRecord)
    (r : Except Err MessageBatch) : FetchOutcome :=
  match r with
  | .error e =>
    { res := .error e,
      spans := [{ span with events := [e], status := .error e, endCount := 1 }] }
  | .ok mb => { res := .ok (tc.wrapBatch ctx mb), spans := [{ span with endCount := 1 }] }

/-- `TracedConsumer.Fetch`. -/
def TracedConsumer.Fetch (tc : TracedConsumer) (batch : Nat) : FetchOutcome :=
  let (ctx, span) := tc.startFetchSpan
  tc.fetchFinish ctx span (tc.consumer.fetch batch)

/-- `TracedConsumer.FetchBytes`. -/
def TracedConsumer.FetchBytes (tc : TracedConsumer) (maxBytes : Nat) : FetchOutcome :=
  let (ctx, span) := tc.startFetchSpan
  tc.fetchFinish ctx span (tc.consumer.fetchBytes maxBytes)

/-- `TracedConsumer.FetchNoWait`. -/
def TracedConsumer.FetchNoWait (tc : TracedConsumer) (batch : Nat) : FetchOutcome :=
  let (ctx, span) := tc.startFetchSpan
  tc.fetchFinish ctx span (tc.consumer.fetchNoWait batch)

/-- `TracedConsumer.Messages`: no span; wraps the native iterator with a
background base context and the consumer's extractor. -/
def TracedConsumer.Messages (tc : TracedConsumer) :
    Except Err TracedMessagesContext × List SpanRecord :=
  match tc.consumer.messages with
  | .error e => (.error e, [])
  | .ok mctx =>
    (.ok { messagesCtx := mctx, ctx := Ctx.background, opts := tc.opts,
           stream := tc.stream, extractCtx := tc.extractContext }, [])

/-- `TracedConsumer.Next`: one receive span around the single-message
pull; extraction is based at `context.Background()`. -/
def TracedConsumer.Next (tc : TracedConsumer) : Except Err TracedMsg × List SpanRecord :=
  let (_, span) := tc.startFetchSpan
  match tc.consumer.next with
  | .error e =>
    (.error e, [{ span with events := [e], status := .error e, endCount := 1 }])
  | .ok msg =>
    (.ok { msg := some msg, ctx := some (tc.extractContext Ctx.background (some msg)) },
     [{ span with endCount := 1 }])

/-! ### Callback handler wrapper (`MessageHandlerWithTracing`) -/

/-- Go panic values, by their `%v` rendering. -/
abbrev PanicVal := String

/-- A user handler: `some v` models a panic with value `v`. -/
abbrev Handler := TracedMsg → Option PanicVal

/-- The parent context the wrapped handler extracts for a message. -/
def handlerParentCtx (propagator : Propagator) (msg : JsMsg) : Ctx :=
  match msg.headers with
  | some h => propagator.extractF Ctx.background h
  | none => Ctx.background

/-- The process span the wrapped handler starts for a message:
stream/consumer from metadata, stream override from options, consumer
kind, `"process " ++ stream` name, process attributes. -/
def handlerSpanOf (tracer : Tracer) (propagator : Propagator) (o : Options) (msg : JsMsg) :
    Ctx × SpanRecord :=
  let parentCtx := handlerParentCtx propagator msg
  let stream := match msg.metadata with
    | some md => md.stream
    | none => ""
  let consumerName := match msg.metadata with
    | some md => md.consumer
    | none => ""
  let subject := if msg.subject ≠ "" then msg.subject else ""
  let stream := if o.stream ≠ "" then o.stream else stream
  let spanName := opTypeProcess ++ " " ++ stream
  tracer.start parentCtx spanName .consumer
    (processAttributes stream consumerName subject "" (Int.ofNat msg.data.length))

/-- The traced message handed to the user handler: its context is the
span-bearing context. -/
def handlerTracedMsgOf (tracer : Tracer) (propagator : Propagator) (o : Options)
    (msg : JsMsg) : TracedMsg :=
  { msg := some msg, ctx := some (handlerSpanOf tracer propagator o msg).1 }

/-- One invocation of the wrapped handler: extract, start the process
span, call the user handler under the panic guard (panic: record the
error, set error status, end the span, re-panic the same value; normal
return: end the span). -/
def messageHandlerCore (handler : Handler) (tracer : Tracer) (propagator : Propagator)
    (o : Options) (msg : JsMsg) : Option PanicVal × SpanRecord :=
  let span := (handlerSpanOf tracer propagator o msg).2
  let tracedMsg := handlerTracedMsgOf tracer propagator o msg
  match handler tracedMsg with
  | some r =>
    (some r,
     { span with
       events := ["panic: " ++ r], status := .error "panic in handler", endCount := 1 })
  | none => (none, { span with endCount := 1 })

/-- `MessageHandlerWithTracingProviders`: panics (modelled by
`Except.error`) on a nil handler; otherwise returns the wrapped native
handler. -/
def MessageHandlerWithTracingProviders (g : Globals) (handler : Option Handler)
    (tp : Option TracerProvider) (prop : Option Propagator)
    (opts : List OptionFn) : Except String (JsMsg → Option PanicVal × SpanRecord) :=
  match handler with
  | none => .error "otx/nats: handler must not be nil"
  | some h =>
    let o := applyOptions opts
    let o := match prop with
      | some p => { o with prop := some p }
      | none => o
    .ok (messageHandlerCore h (getTracer g tp o) (getPropagator g o) o)

/-- `MessageHandlerWithTracing`: global providers. -/
def MessageHandlerWithTracing (g : Globals) (handler : Option Handler)
    (opts : List OptionFn) : Except String (JsMsg → Option PanicVal × SpanRecord) :=
  MessageHandlerWithTracingProviders g handler none none opts

/-! ### Concrete sample values used by witnesses and counterexamples -/

/-- A valid span context: 32 + 16 well-formed id characters. -/
def sampleSC : SpanContext :=
  ⟨List.replicate 32 'a', List.replicate 16 'b'⟩

def sampleTracer : Tracer :=
  ⟨instrumentationName, sampleSC⟩

def sampleTP : TracerProvider :=
  ⟨fun n => ⟨n, sampleSC⟩⟩

def sampleGlobals : Globals :=
  ⟨sampleTP, traceContextProp, none⟩

/-- A JetStream oracle whose every delegate call fails with `"boom"`. -/
def failJS : JetStream :=
  ⟨fun _ => .error "boom", fun _ => .error "boom", fun _ _ => .error "boom"⟩

/-- A JetStream oracle whose delegate calls succeed. -/
def okJS : JetStream :=
  ⟨fun _ => .ok (some ⟨7⟩), fun _ => .ok 1, fun _ _ => .ok 2⟩

def failPublisher : Publisher :=
  ⟨failJS, sampleTracer, traceContextProp, defaultOptions⟩

/-- A publisher built with `WithAsyncSpans(false)`. -/
def noAsyncPublisher : Publisher :=
  ⟨failJS, sampleTracer, traceContextProp, applyOptions [WithAsyncSpans false]⟩

def sampleMsg : JsMsg :=
  ⟨"orders.created", [1, 2, 3], none, some ⟨"ORDERS", "worker"⟩⟩

/-- A consumer oracle whose every delegate call fails with `"boom"`. -/
def failConsumer : Consumer :=
  ⟨fun _ => .error "boom", fun _ => .error "boom", fun _ => .error "boom",
   .error "boom", .error "boom", none⟩

/-- A consumer oracle whose delegate calls succeed. -/
def sampleConsumer : Consumer :=
  ⟨fun _ => .ok ⟨[sampleMsg], none⟩, fun _ => .ok ⟨[sampleMsg], none⟩,
   fun _ => .ok ⟨[sampleMsg], none⟩, .ok sampleMsg, .ok ⟨.ok sampleMsg⟩, some ⟨"durable"⟩⟩

def sampleTC : TracedConsumer :=
  ⟨sampleConsumer, "ORDERS", sampleTracer, traceContextProp, defaultOptions⟩

def failTC : TracedConsumer :=
  ⟨failConsumer, "ORDERS", sampleTracer, traceContextProp, defaultOptions⟩

/-- The traced iterator `sampleTC.Messages` returns. -/
def sampleIter : TracedMessagesContext :=
  { messagesCtx := ⟨.ok sampleMsg⟩, ctx := Ctx.background, opts := defaultOptions,
    stream := "ORDERS", extractCtx := sampleTC.extractContext }

/-- A message carrying an unrelated pre-existing header entry. -/
def sampleOutMsg : Msg :=
  ⟨"orders.created", [1], some [("foo", ["bar"])]⟩

/-- The options value the three constructors resolve: explicit propagator
argument overriding the option. -/
def resolveOpts (prop : Option Propagator) (opts : List OptionFn) : Options :=
  match prop with
  | some p => { applyOptions opts with prop := some p }
  | none => applyOptions opts

/-- A user handler that always panics with value `"boom"`. -/
def panicHandler : Handler := fun _ => some "boom"

/-- A user handler that always returns normally. -/
def okHandler : Handler := fun _ => none

/-! ## Helper lemmas -/

theorem NatsHeader.values_set_self (h : NatsHeader) (k v : String) :
    (NatsHeader.set h k v).values k = [v] := by
  induction h with
  | nil => simp [NatsHeader.set, NatsHeader.values]
  | cons kv rest ih =>
    rw [NatsHeader.set]
    by_cases hk : kv.1 = k
    · rw [if_pos hk, NatsHeader.values, if_pos rfl]
    · rw [if_neg hk, NatsHeader.values, if_neg hk]
      exact ih

theorem headerCarrierGet_set_self (h : NatsHeader) (k v : String) :
    headerCarrierGet (headerCarrierSet h k v) k = v := by
  unfold headerCarrierGet headerCarrierSet
  rw [NatsHeader.values_set_self]

/-- The modelled W3C `traceparent` serialization round-trips on valid
span contexts. -/
theorem parseTraceparent_encode (sc : SpanContext) (h : sc.validb = true) :
    parseTraceparent (encodeTraceparent sc) = some sc := by
  obtain ⟨T, S⟩ := sc
  simp only [SpanContext.validb, Bool.and_eq_true, decide_eq_true_eq] at h
  obtain ⟨hT, hS⟩ := h
  have hdata : (encodeTraceparent ⟨T, S⟩).data
      = ['0', '0', '-'] ++ (T ++ (['-'] ++ (S ++ ['-', '0', '1']))) := rfl
  have h3 : (encodeTraceparent ⟨T, S⟩).data.drop 3 = T ++ (['-'] ++ (S ++ ['-', '0', '1'])) := rfl
  have h35 : (encodeTraceparent ⟨T, S⟩).data.drop 35 = '-' :: (S ++ ['-', '0', '1']) := by
    have hd : ((encodeTraceparent ⟨T, S⟩).data.drop 3).drop 32
        = (encodeTraceparent ⟨T, S⟩).data.drop 35 := by
      rw [List.drop_drop]
    rw [← hd, h3, List.drop_left' hT]
    rfl
  have h36 : (encodeTraceparent ⟨T, S⟩).data.drop 36 = S ++ ['-', '0', '1'] := by
    have hd : ((encodeTraceparent ⟨T, S⟩).data.drop 35).drop 1
        = (encodeTraceparent ⟨T, S⟩).data.drop 36 := by
      rw [List.drop_drop]
    rw [← hd, h35]
    rfl
  have h52 : (encodeTraceparent ⟨T, S⟩).data.drop 52 = ['-', '0', '1'] := by
    have hd : ((encodeTraceparent ⟨T, S⟩).data.drop 36).drop 16
        = (encodeTraceparent ⟨T, S⟩).data.drop 52 := by
      rw [List.drop_drop]
    rw [← hd, h36, List.drop_left' hS]
  have hlen : (encodeTraceparent ⟨T, S⟩).data.length = 55 := by
    rw [hdata]
    simp [hT, hS]
  have htake3 : (encodeTraceparent ⟨T, S⟩).data.take 3 = ['0', '0', '-'] := rfl
  have hc3 : ((encodeTraceparent ⟨T, S⟩).data.drop 35).take 1 = ['-'] := by
    rw [h35]
    rfl
  have hc4 : ((encodeTraceparent ⟨T, S⟩).data.drop 52).take 1 = ['-'] := by
    rw [h52]
    rfl
  have hid1 : ((encodeTraceparent ⟨T, S⟩).data.drop 3).take 32 = T := by
    rw [h3, List.take_left' hT]
  have hid2 : ((encodeTraceparent ⟨T, S⟩).data.drop 36).take 16 = S := by
    rw [h36, List.take_left' hS]
  unfold parseTraceparent
  rw [if_pos ⟨hlen, htake3, hc3, hc4⟩, hid1, hid2]

/-! ## Claim theorems -/

/-- C1: every construction entry point with a nil required dependency
(`NewPublisher`/`NewPublisherWithProviders` with a nil JetStream handle,
`WrapConsumer`/`WrapConsumerWithProviders` with a nil Consumer,
`MessageHandlerWithTracing`/`...Providers` with a nil handler) panics,
deterministically for every choice of the remaining arguments, with the
fixed documented message for that entry point, and never returns a
value (the panic is modelled by the `Except.error` result). -/
theorem nil_dependency_construction_panics (g : Globals) (tp : Option TracerProvider)
    (prop : Option Propagator) (opts : List OptionFn) (stream : String) :
    NewPublisherWithProviders g none tp prop opts
      = .error "otx/nats: JetStream must not be nil"
    ∧ NewPublisher g none opts = .error "otx/nats: JetStream must not be nil"
    ∧ WrapConsumerWithProviders g none stream tp prop opts
      = .error "otx/nats: Consumer must not be nil"
    ∧ WrapConsumer g none stream opts = .error "otx/nats: Consumer must not be nil"
    ∧ MessageHandlerWithTracingProviders g none tp prop opts
      = .error "otx/nats: handler must not be nil"
    ∧ MessageHandlerWithTracing g none opts = .error "otx/nats: handler must not be nil" :=
  ⟨rfl, rfl, rfl, rfl, rfl, rfl⟩

/-- C2: for every `Publish`, `PublishMsg`, `PublishAsync`,
`PublishAsyncMsg`, `Fetch`, `FetchBytes`, `FetchNoWait` and `Next` call
whose delegated underlying client call returns an error, the wrapper
returns exactly that error value (and no result), never a substituted or
wrapped one; on every path that created a span, that single span has the
error recorded as an event and error status set.  (The async wrappers
with async spans disabled are span-less pass-throughs that still
propagate the delegate error unchanged.) -/
theorem delegate_error_propagation (p : Publisher) (tc : TracedConsumer) (ctx : Ctx)
    (subject : String) (data : Bytes) (m : Msg) (n : Nat) (e : Err) :
    (p.js.publishMsg (p.builtPublishMsg ctx subject data) = .error e →
      (p.Publish ctx subject data).res = .error e
      ∧ (p.Publish ctx subject data).spans.map (fun sp => (sp.events, sp.status))
          = [([e], .error e)])
    ∧ (p.js.publishMsg (p.builtFromMsg ctx m) = .error e →
      (p.PublishMsg ctx m).res = .error e
      ∧ (p.PublishMsg ctx m).spans.map (fun sp => (sp.events, sp.status)) = [([e], .error e)])
    ∧ (p.opts.asyncSpans = true →
        p.js.publishMsgAsync (p.builtAsyncMsg subject data) = .error e →
      (p.PublishAsync subject data).res = .error e
      ∧ (p.PublishAsync subject data).spans.map (fun sp => (sp.events, sp.status))
          = [([e], .error e)])
    ∧ (p.opts.asyncSpans = false → p.js.publishAsync subject data = .error e →
      (p.PublishAsync subject data).res = .error e)
    ∧ (p.opts.asyncSpans = true → p.js.publishMsgAsync (p.builtAsyncFromMsg m) = .error e →
      (p.PublishAsyncMsg m).res = .error e
      ∧ (p.PublishAsyncMsg m).spans.map (fun sp => (sp.events, sp.status)) = [([e], .error e)])
    ∧ (p.opts.asyncSpans = false → p.js.publishMsgAsync m = .error e →
      (p.PublishAsyncMsg m).res = .error e)
    ∧ (tc.consumer.fetch n = .error e →
      (tc.Fetch n).res = .error e
      ∧ (tc.Fetch n).spans.map (fun sp => (sp.events, sp.status)) = [([e], .error e)])
    ∧ (tc.consumer.fetchBytes n = .error e →
      (tc.FetchBytes n).res = .error e
      ∧ (tc.FetchBytes n).spans.map (fun sp => (sp.events, sp.status)) = [([e], .error e)])
    ∧ (tc.consumer.fetchNoWait n = .error e →
      (tc.FetchNoWait n).res = .error e
      ∧ (tc.FetchNoWait n).spans.map (fun sp => (sp.events, sp.status)) = [([e], .error e)])
    ∧ (tc.consumer.next = .error e →
      (tc.Next).1 = .error e
      ∧ (tc.Next).2.map (fun sp => (sp.events, sp.status)) = [([e], .error e)]) := by
  refine ⟨?_, ?_, ?_, ?_, ?_, ?_, ?_, ?_, ?_, ?_⟩
  · intro h
    simp [Publisher.Publish, Publisher.publishFinish, h]
  · intro h
    simp [Publisher.PublishMsg, Publisher.publishFinish, h]
  · intro hon h
    simp [Publisher.PublishAsync, Publisher.asyncFinish, hon, h]
  · intro hoff h
    simp [Publisher.PublishAsync, hoff, h]
  · intro hon h
    simp [Publisher.PublishAsyncMsg, Publisher.asyncFinish, hon, h]
  · intro hoff h
    simp [Publisher.PublishAsyncMsg, hoff, h]
  · intro h
    simp [TracedConsumer.Fetch, TracedConsumer.fetchFinish, h]
  · intro h
    simp [TracedConsumer.FetchBytes, TracedConsumer.fetchFinish, h]
  · intro h
    simp [TracedConsumer.FetchNoWait, TracedConsumer.fetchFinish, h]
  · intro h
    simp [TracedConsumer.Next, h]

/-- C2 witness: the error-propagation theorem evaluated on concrete
publishers/consumers whose delegate calls fail with `"boom"`. -/
theorem delegate_error_propagation_witness :
    ((failPublisher.Publish Ctx.background "orders.created" [1]).res = .error "boom"
      ∧ (failPublisher.Publish Ctx.background "orders.created" [1]).spans.map
          (fun sp => (sp.events, sp.status)) = [(["boom"], .error "boom")])
    ∧ ((failPublisher.PublishMsg Ctx.background sampleOutMsg).res = .error "boom")
    ∧ ((failPublisher.PublishAsync "orders.created" [1]).res = .error "boom")
    ∧ ((noAsyncPublisher.PublishAsync "orders.created" [1]).res = .error "boom")
    ∧ ((failPublisher.PublishAsyncMsg sampleOutMsg).res = .error "boom")
    ∧ ((noAsyncPublisher.PublishAsyncMsg sampleOutMsg).res = .error "boom")
    ∧ ((failTC.Fetch 5).res = .error "boom")
    ∧ ((failTC.FetchBytes 5).res = .error "boom")
    ∧ ((failTC.FetchNoWait 5).res = .error "boom")
    ∧ ((failTC.Next).1 = .error "boom") := by
  refine ⟨?_, ?_, ?_, ?_, ?_, ?_, ?_, ?_, ?_, ?_⟩
  · exact (delegate_error_propagation failPublisher failTC Ctx.background "orders.created" [1]
      sampleOutMsg 5 "boom").1 rfl
  · exact ((delegate_error_propagation failPublisher failTC Ctx.background "orders.created" [1]
      sampleOutMsg 5 "boom").2.1 rfl).1
  · exact ((delegate_error_propagation failPublisher failTC Ctx.background "orders.created" [1]
      sampleOutMsg 5 "boom").2.2.1 rfl rfl).1
  · exact (delegate_error_propagation noAsyncPublisher failTC Ctx.background "orders.created" [1]
      sampleOutMsg 5 "boom").2.2.2.1 rfl rfl
  · exact ((delegate_error_propagation failPublisher failTC Ctx.background "orders.created" [1]
      sampleOutMsg 5 "boom").2.2.2.2.1 rfl rfl).1
  · exact (delegate_error_propagation noAsyncPublisher failTC Ctx.background "orders.created" [1]
      sampleOutMsg 5 "boom").2.2.2.2.2.1 rfl rfl
  · exact ((delegate_error_propagation failPublisher failTC Ctx.background "orders.created" [1]
      sampleOutMsg 5 "boom").2.2.2.2.2.2.1 rfl).1
  · exact ((delegate_error_propagation failPublisher failTC Ctx.background "orders.created" [1]
      sampleOutMsg 5 "boom").2.2.2.2.2.2.2.1 rfl).1
  · exact ((delegate_error_propagation failPublisher failTC Ctx.background "orders.created" [1]
      sampleOutMsg 5 "boom").2.2.2.2.2.2.2.2.1 rfl).1
  · exact ((delegate_error_propagation failPublisher failTC Ctx.background "orders.created" [1]
      sampleOutMsg 5 "boom").2.2.2.2.2.2.2.2.2 rfl).1

/-- C3: the handler wrapper built by
`MessageHandlerWithTracingProviders` is exactly one process-span
invocation per message (the core returns the single span record of the
invocation); when the user handler panics with value `v` the wrapped
handler re-panics with the same `v` after that one span got error
status, a non-empty error-event list, and was ended exactly once; on
normal return the span is also ended exactly once. -/
theorem handler_panic_reraise (g : Globals) (h : Handler) (tp : Option TracerProvider)
    (prop : Option Propagator) (opts : List OptionFn) (msg : JsMsg) (v : PanicVal) :
    MessageHandlerWithTracingProviders g (some h) tp prop opts
      = .ok (messageHandlerCore h (getTracer g tp (resolveOpts prop opts))
          (getPropagator g (resolveOpts prop opts)) (resolveOpts prop opts))
    ∧ ∀ (tracer : Tracer) (propag : Propagator) (o : Options),
        (h (handlerTracedMsgOf tracer propag o msg) = some v →
          (messageHandlerCore h tracer propag o msg).1 = some v
          ∧ (messageHandlerCore h tracer propag o msg).2.status = .error "panic in handler"
          ∧ (messageHandlerCore h tracer propag o msg).2.events = ["panic: " ++ v]
          ∧ (messageHandlerCore h tracer propag o msg).2.endCount = 1)
        ∧ (h (handlerTracedMsgOf tracer propag o msg) = none →
          (messageHandlerCore h tracer propag o msg).1 = none
          ∧ (messageHandlerCore h tracer propag o msg).2.endCount = 1) := by
  constructor
  · cases prop <;> rfl
  · intro tracer propag o
    constructor
    · intro hp
      simp [messageHandlerCore, hp]
    · intro hn
      simp [messageHandlerCore, hn]

/-- C3 witness: the panic re-raise theorem evaluated on an
always-panicking and an always-returning handler. -/
theorem handler_panic_reraise_witness :
    MessageHandlerWithTracingProviders sampleGlobals (some panicHandler) none none []
      = .ok (messageHandlerCore panicHandler (getTracer sampleGlobals none (resolveOpts none []))
          (getPropagator sampleGlobals (resolveOpts none [])) (resolveOpts none []))
    ∧ ((messageHandlerCore panicHandler sampleTracer traceContextProp defaultOptions
          sampleMsg).1 = some "boom"
      ∧ (messageHandlerCore panicHandler sampleTracer traceContextProp defaultOptions
          sampleMsg).2.status = .error "panic in handler"
      ∧ (messageHandlerCore panicHandler sampleTracer traceContextProp defaultOptions
          sampleMsg).2.events = ["panic: " ++ "boom"]
      ∧ (messageHandlerCore panicHandler sampleTracer traceContextProp defaultOptions
          sampleMsg).2.endCount = 1)
    ∧ ((messageHandlerCore okHandler sampleTracer traceContextProp defaultOptions
          sampleMsg).1 = none
      ∧ (messageHandlerCore okHandler sampleTracer traceContextProp defaultOptions
          sampleMsg).2.endCount = 1) := by
  refine ⟨?_, ?_, ?_⟩
  · exact (handler_panic_reraise sampleGlobals panicHandler none none [] sampleMsg "boom").1
  · exact ((handler_panic_reraise sampleGlobals panicHandler none none [] sampleMsg "boom").2
      sampleTracer traceContextProp defaultOptions).1 rfl
  · exact ((handler_panic_reraise sampleGlobals okHandler none none [] sampleMsg "x").2
      sampleTracer traceContextProp defaultOptions).2 rfl

/-- C4: injecting a context holding a valid active span context into a
NATS header map (`InjectNATS`, which also initializes a nil map) and
then extracting from that map (`ExtractNATS`) yields a context whose
trace identifiers — trace id and the span id that becomes the parent
span id — equal those of the original span context, for any
pre-existing header entries. -/
theorem header_inject_extract_roundtrip (g : Globals) (ctx2 : Ctx) (m : Msg)
    (sc : SpanContext) (hg : g.propagator = traceContextProp) (hv : sc.validb = true) :
    (ExtractNATS g ctx2 (InjectNATS g ⟨some sc⟩ m).header).span = some sc := by
  have hinj : (InjectNATS g ⟨some sc⟩ m).header
      = some (headerCarrierSet (m.header.getD []) traceparentKey (encodeTraceparent sc)) := by
    simp [InjectNATS, hg, traceContextProp, hv]
  rw [hinj]
  simp [ExtractNATS, hg, traceContextProp, headerCarrierGet_set_self,
    parseTraceparent_encode sc hv]

/-- C4 witness: the round trip evaluated at a concrete valid span
context and a header that already carries an unrelated entry. -/
theorem header_inject_extract_roundtrip_witness :
    sampleGlobals.propagator = traceContextProp
    ∧ sampleSC.validb = true
    ∧ (ExtractNATS sampleGlobals Ctx.background
        (InjectNATS sampleGlobals ⟨some sampleSC⟩ sampleOutMsg).header).span = some sampleSC :=
  ⟨rfl, by decide,
   header_inject_extract_roundtrip sampleGlobals Ctx.background sampleOutMsg sampleSC rfl
     (by decide)⟩

/-- C5: `publishAttributes "orders.created" "" 0` omits the message-id
and body-size keys entirely while carrying the four fixed pairs, and
`publishAttributes "orders.created" "msg-1" 10` includes both optional
pairs with those values. -/
theorem publishAttributes_presence_absence :
    ((publishAttributes "orders.created" "" 0).all
      (fun kv => (kv.1 != attrMessagingMessageID) && (kv.1 != attrMessagingMessageBodySize)))
      = true
    ∧ (attrMessagingSystem, .str messagingSystem) ∈ publishAttributes "orders.created" "" 0
    ∧ (attrMessagingOperationName, .str opTypePublish) ∈ publishAttributes "orders.created" "" 0
    ∧ (attrMessagingOperationType, .str opTypeSend) ∈ publishAttributes "orders.created" "" 0
    ∧ (attrMessagingDestinationName, .str "orders.created")
        ∈ publishAttributes "orders.created" "" 0
    ∧ (attrMessagingMessageID, .str "msg-1") ∈ publishAttributes "orders.created" "msg-1" 10
    ∧ (attrMessagingMessageBodySize, .int 10) ∈ publishAttributes "orders.created" "msg-1" 10 := by
  refine ⟨?_, ?_, ?_, ?_, ?_, ?_, ?_⟩ <;> decide

/-- C6: with the async-span option disabled, `PublishAsync` and
`PublishAsyncMsg` create no span, perform no propagator injection, pass
the caller's arguments (including the untouched message — a nil header
map stays nil) straight to the underlying client, and return exactly
the underlying client's result. -/
theorem async_toggle_pure_passthrough (p : Publisher) (subject : String) (data : Bytes)
    (m : Msg) (hoff : p.opts.asyncSpans = false) :
    (p.PublishAsync subject data).spans = []
    ∧ (p.PublishAsync subject data).injects = 0
    ∧ (p.PublishAsync subject data).call = .dataCall subject data
    ∧ (p.PublishAsync subject data).res = p.js.publishAsync subject data
    ∧ (p.PublishAsyncMsg m).spans = []
    ∧ (p.PublishAsyncMsg m).injects = 0
    ∧ (p.PublishAsyncMsg m).call = .msgCall m
    ∧ (p.PublishAsyncMsg m).res = p.js.publishMsgAsync m := by
  refine ⟨?_, ?_, ?_, ?_, ?_, ?_, ?_, ?_⟩ <;>
    simp [Publisher.PublishAsync, Publisher.PublishAsyncMsg, hoff]

/-- C6 witness: the pass-through theorem evaluated on a publisher built
with `WithAsyncSpans(false)` and a message with a nil header map. -/
theorem async_toggle_pure_passthrough_witness :
    noAsyncPublisher.opts.asyncSpans = false
    ∧ ((noAsyncPublisher.PublishAsync "orders.created" [1]).spans = []
      ∧ (noAsyncPublisher.PublishAsync "orders.created" [1]).injects = 0
      ∧ (noAsyncPublisher.PublishAsync "orders.created" [1]).call = .dataCall "orders.created" [1]
      ∧ (noAsyncPublisher.PublishAsync "orders.created" [1]).res
          = noAsyncPublisher.js.publishAsync "orders.created" [1]
      ∧ (noAsyncPublisher.PublishAsyncMsg ⟨"s", [], none⟩).spans = []
      ∧ (noAsyncPublisher.PublishAsyncMsg ⟨"s", [], none⟩).injects = 0
      ∧ (noAsyncPublisher.PublishAsyncMsg ⟨"s", [], none⟩).call = .msgCall ⟨"s", [], none⟩
      ∧ (noAsyncPublisher.PublishAsyncMsg ⟨"s", [], none⟩).res
          = noAsyncPublisher.js.publishMsgAsync ⟨"s", [], none⟩) :=
  ⟨rfl, async_toggle_pure_passthrough noAsyncPublisher "orders.created" [1] ⟨"s", [], none⟩ rfl⟩

/-- C7 counterexample: a successful `Next()` on the continuous iterator
returned by `Messages()` opens no receive span at all, refuting the
claim that each such call opens (and closes) its own receive span. -/
theorem messages_next_opens_no_span_counterexample :
    (sampleTC.Messages).1 = .ok sampleIter
    ∧ (sampleIter.Next).1
        = .ok ⟨some sampleMsg, some (sampleTC.extractContext Ctx.background (some sampleMsg))⟩
    ∧ ¬ (sampleIter.Next).2 ≠ [] :=
  ⟨rfl, rfl, fun hne => hne rfl⟩

/-- C7 amended: the consumer-level `Messages()` call opens no span, and
a successful `Next()` on the continuous iterator it returns also opens
no span; `Next()` does extract trace context from the returned
message's own headers into the wrapped message's context. -/
theorem messages_and_iterator_next_spans (tc : TracedConsumer) (mctx : MessagesCtx)
    (c : TracedMessagesContext) (msg : JsMsg) :
    (tc.Messages).2 = []
    ∧ (tc.consumer.messages = .ok mctx →
        (tc.Messages).1 = .ok ⟨mctx, Ctx.background, tc.opts, tc.stream, tc.extractContext⟩)
    ∧ (c.messagesCtx.nextResult = .ok msg →
        (c.Next).2 = []
        ∧ (c.Next).1 = .ok ⟨some msg, some (c.extractCtx c.ctx (some msg))⟩) := by
  refine ⟨?_, ?_, ?_⟩
  · rcases h : tc.consumer.messages with e | mctx2 <;> simp [TracedConsumer.Messages, h]
  · intro h
    simp [TracedConsumer.Messages, h]
  · intro h
    constructor <;> simp [TracedMessagesContext.Next, h]

/-- C7 amended witness: the amended statement evaluated on a concrete
consumer and iterator with one successful message. -/
theorem messages_and_iterator_next_spans_witness :
    (sampleTC.Messages).2 = []
    ∧ (sampleTC.Messages).1
        = .ok ⟨⟨.ok sampleMsg⟩, Ctx.background, sampleTC.opts, sampleTC.stream,
               sampleTC.extractContext⟩
    ∧ ((sampleIter.Next).2 = []
      ∧ (sampleIter.Next).1
          = .ok ⟨some sampleMsg, some (sampleIter.extractCtx sampleIter.ctx (some sampleMsg))⟩) := by
  refine ⟨?_, ?_, ?_⟩
  · exact (messages_and_iterator_next_spans sampleTC ⟨.ok sampleMsg⟩ sampleIter sampleMsg).1
  · exact (messages_and_iterator_next_spans sampleTC ⟨.ok sampleMsg⟩ sampleIter sampleMsg).2.1 rfl
  · exact (messages_and_iterator_next_spans sampleTC ⟨.ok sampleMsg⟩ sampleIter sampleMsg).2.2 rfl

/-- C8: evaluating the handler wrapper at the failing input — a handler
built with `WithProcessSpans(false)`.  The option is stored as `false`,
yet the wrapper returned by `MessageHandlerWithTracingProviders` still
starts (and ends) one process span for the delivered message: the
`processSpans` toggle is never consulted by any operational code path,
contradicting the documented contract of `WithProcessSpans`. -/
theorem process_span_toggle_ignored :
    (applyOptions [WithProcessSpans false]).processSpans = false
    ∧ MessageHandlerWithTracingProviders sampleGlobals (some okHandler) none none
        [WithProcessSpans false]
      = .ok (messageHandlerCore okHandler sampleTracer traceContextProp
          (applyOptions [WithProcessSpans false]))
    ∧ (messageHandlerCore okHandler sampleTracer traceContextProp
        (applyOptions [WithProcessSpans false]) sampleMsg).2.name = "process ORDERS"
    ∧ (messageHandlerCore okHandler sampleTracer traceContextProp
        (applyOptions [WithProcessSpans false]) sampleMsg).2.endCount = 1 :=
  ⟨rfl, rfl, by decide, rfl⟩

/-- C9: the batch iterator yields exactly the underlying batch's
messages, in the same order (no reordering, drops, or duplicates), each
wrapped with a context produced by extracting from that message's own
headers via the consumer's extractor. -/
theorem batch_fifo_rewrap (b : TracedMessageBatch) (tc : TracedConsumer) (ctx : Ctx)
    (mb : MessageBatch) :
    (b.Messages).map (fun tm => tm.msg) = b.batch.msgs.map some
    ∧ (b.Messages).map (fun tm => tm.ctx)
        = b.batch.msgs.map (fun m => some (b.extractCtx b.ctx (some m)))
    ∧ (b.Messages).length = b.batch.msgs.length
    ∧ ((tc.wrapBatch ctx mb).Messages).map (fun tm => tm.ctx)
        = mb.msgs.map (fun m => some (tc.extractContext ctx (some m))) := by
  refine ⟨?_, ?_, ?_, ?_⟩ <;>
    simp [TracedMessageBatch.Messages, TracedConsumer.wrapBatch]

/-- C10: every receive span created by `Fetch`, `FetchBytes`,
`FetchNoWait` and `Next` is started from a fresh background context, so
it is a root span: each of these calls creates exactly one span and its
recorded parent is absent, regardless of any span active at the call
site (the methods accept no caller context at all). -/
theorem fetch_spans_are_root (tc : TracedConsumer) (n k m : Nat) :
    (tc.startFetchSpan).2.parent = none
    ∧ (tc.Fetch n).spans.map (fun sp => sp.parent) = [none]
    ∧ (tc.FetchBytes k).spans.map (fun sp => sp.parent) = [none]
    ∧ (tc.FetchNoWait m).spans.map (fun sp => sp.parent) = [none]
    ∧ (tc.Next).2.map (fun sp => sp.parent) = [none] := by
  refine ⟨rfl, ?_, ?_, ?_, ?_⟩
  · rcases h : tc.consumer.fetch n with e | mb <;>
      simp [TracedConsumer.Fetch, TracedConsumer.fetchFinish, TracedConsumer.startFetchSpan,
        Tracer.start, Ctx.background, h]
  · rcases h : tc.consumer.fetchBytes k with e | mb <;>
      simp [TracedConsumer.FetchBytes, TracedConsumer.fetchFinish, TracedConsumer.startFetchSpan,
        Tracer.start, Ctx.background, h]
  · rcases h : tc.consumer.fetchNoWait m with e | mb <;>
      simp [TracedConsumer.FetchNoWait, TracedConsumer.fetchFinish, TracedConsumer.startFetchSpan,
        Tracer.start, Ctx.background, h]
  · rcases h : tc.consumer.next with e | mg <;>
      simp [TracedConsumer.Next, TracedConsumer.startFetchSpan, Tracer.start, Ctx.background, h]

end Otx
